import Mathlib

/-!
Verification of the stacker build orchestrator and squashfs diff engine (build.go).

The development shallowly embeds the control flow of `Builder.Build` and
`generateSquashfsLayer`:
* pure data (diff classification, environment computation) is translated directly;
* the external collaborators (snapshot store, image store, run/import, mknod,
  mksquashfs) are modelled by an oracle `Ext` recording whether each call succeeds,
  and by an explicit action trace `Act` recording which calls the code makes;
* the world state visible to the orchestrator (named snapshots, image references,
  build-cache entries) is threaded explicitly through each phase.
-/

namespace Stacker

/-- Name of the ephemeral working snapshot (`WorkingContainerName`, defined outside
src/; the concrete value is immaterial to the claims). -/
def WorkingContainerName : String := "_working"

/-- Default PATH (`ReasonableDefaultPath`, a constant defined outside src/; the
conventional value is used here, and no claim depends on it). -/
def ReasonableDefaultPath : String := "/usr/local/sbin:/usr/local/bin:/usr/sbin:/usr/bin:/sbin:/bin"

/-- Go's strings.HasPrefix, on the underlying character lists. -/
def strStarts (s p : String) : Bool := p.data.isPrefixOf s.data

/-- Classification of one path in an mtree diff (go-mtree's InodeDelta types,
as consumed by the switch in generateSquashfsLayer). -/
inductive DiffType
| modified
| extra
| missing
| same
deriving DecidableEq, Repr

/-- One path-diff record: the path relative to the rootfs, its classification, and
the directory-ness of the old (base) and new (built) entries. -/
structure DiffEntry where
  path : String
  type : DiffType
  oldIsDir : Bool
  newIsDir : Bool
deriving DecidableEq, Repr

/-- Result of the unix.Mknod call creating a whiteout node: success, an error for
which os.IsNotExist holds (ENOENT), unix.ENOTDIR, or any other error. -/
inductive MknodRes
| ok
| enoent
| enotdir
| other
deriving DecidableEq, Repr

/-- The mknod error test of generateSquashfsLayer: the build continues unless the
error is neither "does not exist" nor ENOTDIR. -/
def tolerableMknod (r : MknodRes) : Bool :=
  match r with
  | .ok => true
  | .enoent => true
  | .enotdir => true
  | .other => false

/-- Filesystem call made by the diff loop: creation of a character-special node
with the given device numbers (the overlay whiteout convention). -/
inductive DiffAct
| mknodChar (p : String) (major minor : Nat)
deriving DecidableEq, Repr

/-- The include/exclude path lists handed to the external mksquashfs backend
(squashfs.ExcludePaths; an include carries the directory flag passed to
AddInclude). -/
structure ExcludePaths where
  includes : List (String × Bool)
  excludes : List String
deriving DecidableEq, Repr

/-- Outcome of the diff loop of generateSquashfsLayer: optional fatal error, the
accumulated ExcludePaths, the accumulated `missing` slice (whose members the
deferred function removes from the working tree on every exit), and the mknod
calls that were made. -/
structure DiffOutcome where
  err : Option String
  paths : ExcludePaths
  cleanup : List String
  acts : List DiffAct
deriving DecidableEq, Repr

/-- Go's path.Join for a directory and a clean relative path. -/
def pathJoin (a b : String) : String := a ++ "/" ++ b

/-- The diff loop of generateSquashfsLayer (build.go lines 113-139): for each diff,
Modified and Extra paths are appended to `missing` and added to the include list
with the new entry's directory flag; Missing paths are appended to `missing`,
added to the include list with the old entry's directory flag, and a whiteout
character node with device numbers 0/0 is created (errors tolerated when ENOENT
or ENOTDIR, fatal otherwise); Same paths are added to the exclude list. -/
def processDiffs (rootfsPath : String) (mk : String → MknodRes) :
    List DiffEntry → DiffOutcome
| [] => ⟨none, ⟨[], []⟩, [], []⟩
| d :: rest =>
  match d.type with
  | .modified =>
    let p := pathJoin rootfsPath d.path
    let r := processDiffs rootfsPath mk rest
    ⟨r.err, ⟨(p, d.newIsDir) :: r.paths.includes, r.paths.excludes⟩, p :: r.cleanup, r.acts⟩
  | .extra =>
    let p := pathJoin rootfsPath d.path
    let r := processDiffs rootfsPath mk rest
    ⟨r.err, ⟨(p, d.newIsDir) :: r.paths.includes, r.paths.excludes⟩, p :: r.cleanup, r.acts⟩
  | .missing =>
    let p := pathJoin rootfsPath d.path
    if tolerableMknod (mk p) then
      let r := processDiffs rootfsPath mk rest
      ⟨r.err, ⟨(p, d.oldIsDir) :: r.paths.includes, r.paths.excludes⟩, p :: r.cleanup,
        DiffAct.mknodChar p 0 0 :: r.acts⟩
    else
      ⟨some ("couldn't mknod whiteout for " ++ d.path), ⟨[(p, d.oldIsDir)], []⟩, [p],
        [DiffAct.mknodChar p 0 0]⟩
  | .same =>
    let p := pathJoin rootfsPath d.path
    let r := processDiffs rootfsPath mk rest
    ⟨r.err, ⟨r.paths.includes, p :: r.paths.excludes⟩, r.cleanup, r.acts⟩

/-- The include-list contribution of one diff record. -/
def inclOf (rootfsPath : String) (d : DiffEntry) : Option (String × Bool) :=
  match d.type with
  | .modified => some (pathJoin rootfsPath d.path, d.newIsDir)
  | .extra => some (pathJoin rootfsPath d.path, d.newIsDir)
  | .missing => some (pathJoin rootfsPath d.path, d.oldIsDir)
  | .same => none

/-- The exclude-list contribution of one diff record. -/
def exclOf (rootfsPath : String) (d : DiffEntry) : Option String :=
  match d.type with
  | .same => some (pathJoin rootfsPath d.path)
  | _ => none

/-- Modelled from the spec: the external go-mtree comparison (mtree.CompareSame,
a vendored third-party library, not under src/), restricted to flat trees of
regular files given as (path, content-hash) association lists. A path present in
both trees is Same when the hashes agree and Modified otherwise; a path only in
the base tree is Missing; a path only in the built tree is Extra. -/
def compareTrees (base built : List (String × String)) : List DiffEntry :=
  (base.map fun pc =>
    match List.lookup pc.1 built with
    | some h => if h = pc.2 then ⟨pc.1, .same, false, false⟩ else ⟨pc.1, .modified, false, false⟩
    | none => ⟨pc.1, .missing, false, false⟩)
  ++ ((built.filter fun pc => (List.lookup pc.1 base).isNone).map
      fun pc => ⟨pc.1, .extra, false, false⟩)

/-- A build-cache record: the layer name the entry was stored under and the blob
descriptor (build-only layers store a bogus empty descriptor, modelled as 0).
The cache store itself (cache.go) is not under src/. -/
structure CacheEntry where
  name : String
  blob : Nat
deriving DecidableEq, Repr

/-- The orchestrator-visible world: the named snapshots of the snapshot store, the
named references of the image store, and the build-cache entries. -/
structure World where
  snapshots : List String
  imageRefs : List (String × Nat)
  cache : List (String × CacheEntry)
deriving DecidableEq, Repr

/-- The recipe fields of one layer that the build loop consults (metadata fields
other than the environment do not affect any claim and are elided). -/
structure Layer where
  name : String
  buildOnly : Bool
  fromBuilt : Bool
  fromTag : String
  env : List (String × String)
  hasRun : Bool
deriving DecidableEq, Repr

/-- Oracle for the external collaborators: whether each fallible call of the build
loop succeeds, the descriptor produced by the manifest commit, and the base
image's config environment. -/
structure Ext where
  importOk : Bool
  materializeOk : Bool
  getBaseOk : Bool
  applyOk : Bool
  shExists : Bool
  runOk : Bool
  snapshotOk : Bool
  packageOk : Bool
  resolveOk : Bool
  commitOk : Bool
  updateRefOk : Bool
  bundleOk : Bool
  putOk : Bool
  saveOk : Bool
  commitDesc : Nat
  baseEnv : List String
deriving DecidableEq, Repr

/-- Calls the build loop makes against its collaborators, in order. -/
inductive Act
| importFiles (layer : String)
| deleteSnap (n : String)
| restore (src dst : String)
| create (n : String)
| getBase (layer : String)
| applyImports (layer : String)
| runCmds (layer : String)
| snapshot (src dst : String)
| package (layer : String)
| commitMetadata (layer : String) (env : List String)
| updateRef (n : String) (d : Nat)
| cachePut (n : String)
| save (n : String)
| gcRun
deriving DecidableEq, Repr

/-- Result of processing one layer (or one whole build): optional error, the
resulting world, and the trace of collaborator calls. -/
structure LayerResult where
  err : Option String
  world : World
  trace : List Act
deriving DecidableEq, Repr

/-- Add a snapshot name (idempotent). -/
def addSnap (l : List String) (n : String) : List String :=
  if l.contains n then l else n :: l

/-- Remove a snapshot name. -/
def removeSnap (l : List String) (n : String) : List String :=
  l.filter fun m => !(m == n)

/-- Update an association list at a key (atomic replace). -/
def setAssoc {α : Type} (l : List (String × α)) (k : String) (v : α) : List (String × α) :=
  (k, v) :: l.filter fun kv => !(kv.1 == k)

/-- Cache lookup as consulted by the build loop. Modelled from the spec: the cache
store (cache.go) is not under src/; per the spec, a hit for a build-only layer
additionally requires the entry's named snapshot to still exist in the snapshot
store — "On hit for a build-only layer, the Orchestrator must additionally verify
the named snapshot still exists in the Snapshot Store; if it does not, this is
treated as a miss for snapshot purposes only". -/
def cacheLookup (w : World) (l : Layer) : Option CacheEntry :=
  match List.lookup l.name w.cache with
  | none => none
  | some e => if l.buildOnly && !(w.snapshots.contains e.name) then none else some e

/-- Render recipe environment pairs the way the build loop appends them. -/
def renderEnv (env : List (String × String)) : List String :=
  env.map fun kv => kv.1 ++ "=" ++ kv.2

/-- The image-config environment computation (build.go lines 478-498): append each
recipe environment pair to the base config env while noting whether the recipe
key PATH occurred; if not, scan the resulting env for an entry with the "PATH="
prefix; if PATH is still unset, append the default PATH entry. -/
def commitEnv (baseEnv : List String) (env : List (String × String)) : List String :=
  let folded := env.foldl
    (fun acc kv => (acc.1 ++ [kv.1 ++ "=" ++ kv.2], acc.2 || (kv.1 == "PATH")))
    (baseEnv, false)
  let pathSet := if folded.2 then true else folded.1.any fun s => strStarts s "PATH="
  if pathSet then folded.1 else folded.1 ++ ["PATH=" ++ ReasonableDefaultPath]

/-- The final SaveLayer call of a layer's processing, made when the stackerfile
has a save URL. -/
def saveIfAsked (hasSave saveOk : Bool) (name : String) (w : World) (tr : List Act) :
    LayerResult :=
  if hasSave then
    if !saveOk then ⟨some "save layer", w, tr ++ [Act.save name]⟩
    else ⟨none, w, tr ++ [Act.save name]⟩
  else ⟨none, w, tr⟩

/-- The build-only tail of the miss path (build.go lines 426-441): delete any old
snapshot of the layer's name, snapshot the working tree under the layer's name,
and record a build-only cache entry (a bogus empty descriptor). -/
def buildOnlyPhase (l : Layer) (x : Ext) (w : World) : LayerResult :=
  let w1 : World := { w with snapshots := removeSnap w.snapshots l.name }
  if !x.snapshotOk then
    ⟨some "snapshot", w1, [Act.deleteSnap l.name, Act.snapshot WorkingContainerName l.name]⟩
  else
    let w2 : World := { w1 with snapshots := addSnap w1.snapshots l.name }
    if !x.putOk then
      ⟨some "cache put", w2,
        [Act.deleteSnap l.name, Act.snapshot WorkingContainerName l.name, Act.cachePut l.name]⟩
    else
      ⟨none, { w2 with cache := setAssoc w2.cache l.name ⟨l.name, 0⟩ },
        [Act.deleteSnap l.name, Act.snapshot WorkingContainerName l.name, Act.cachePut l.name]⟩

/-- The packaged tail of the miss path for a known layer type (build.go lines
446-623): generate the layer blob (tar repack or the squashfs diff engine),
resolve the reference, commit the mutated image config (with the environment
computation), update the named reference to the committed descriptor, write the
bundle metadata, replace the layer's snapshot, and finally record the cache entry
(the second ResolveReference returns the descriptor just written by
UpdateReference), then save the layer if asked. -/
def packagedTail (hasSave : Bool) (l : Layer) (x : Ext) (w : World) : LayerResult :=
  if !x.packageOk then ⟨some "generate layer", w, [Act.package l.name]⟩
  else if !x.resolveOk then ⟨some "resolve reference", w, [Act.package l.name]⟩
  else
    let env := commitEnv x.baseEnv l.env
    if !x.commitOk then
      ⟨some "commit metadata", w, [Act.package l.name, Act.commitMetadata l.name env]⟩
    else if !x.updateRefOk then
      ⟨some "update reference", w,
        [Act.package l.name, Act.commitMetadata l.name env,
          Act.updateRef l.name x.commitDesc]⟩
    else
      let w1 : World := { w with imageRefs := setAssoc w.imageRefs l.name x.commitDesc }
      if !x.bundleOk then
        ⟨some "write bundle meta", w1,
          [Act.package l.name, Act.commitMetadata l.name env,
            Act.updateRef l.name x.commitDesc]⟩
      else
        let w2 : World := { w1 with snapshots := removeSnap w1.snapshots l.name }
        if !x.snapshotOk then
          ⟨some "snapshot", w2,
            [Act.package l.name, Act.commitMetadata l.name env,
              Act.updateRef l.name x.commitDesc, Act.deleteSnap l.name,
              Act.snapshot WorkingContainerName l.name]⟩
        else
          let w3 : World := { w2 with snapshots := addSnap w2.snapshots l.name }
          if !x.putOk then
            ⟨some "cache put", w3,
              [Act.package l.name, Act.commitMetadata l.name env,
                Act.updateRef l.name x.commitDesc, Act.deleteSnap l.name,
                Act.snapshot WorkingContainerName l.name, Act.cachePut l.name]⟩
          else
            let w4 : World := { w3 with cache := setAssoc w3.cache l.name ⟨l.name, x.commitDesc⟩ }
            saveIfAsked hasSave x.saveOk l.name w4
              [Act.package l.name, Act.commitMetadata l.name env,
                Act.updateRef l.name x.commitDesc, Act.deleteSnap l.name,
                Act.snapshot WorkingContainerName l.name, Act.cachePut l.name]

/-- The layer-type switch (build.go lines 445-462): tar and squashfs both proceed
to packaging; any other layer type is an immediate error. -/
def packagePhase (layerType : String) (hasSave : Bool) (l : Layer) (x : Ext) (w : World) :
    LayerResult :=
  if layerType = "tar" then packagedTail hasSave l x w
  else if layerType = "squashfs" then packagedTail hasSave l x w
  else ⟨some ("unknown layer type: " ++ layerType), w, []⟩

/-- After commands have run: a build-only layer is snapshotted and cached, any
other layer is packaged. -/
def finishMiss (layerType : String) (hasSave : Bool) (l : Layer) (x : Ext) (w : World)
    (tr : List Act) : LayerResult :=
  if l.buildOnly then
    let r := buildOnlyPhase l x w
    ⟨r.err, r.world, tr ++ r.trace⟩
  else
    let r := packagePhase layerType hasSave l x w
    ⟨r.err, r.world, tr ++ r.trace⟩

/-- The miss path of the build loop (build.go lines 359-623): delete the stale
working snapshot; restore the base layer's snapshot into the working snapshot
when the base is a built layer, else create a fresh one; fetch the base layer;
apply the declared imports; when the recipe has commands, require /bin/sh in the
rootfs and run them; then finish according to the build-only flag. -/
def missPhase (layerType : String) (hasSave : Bool) (l : Layer) (x : Ext) (w : World) :
    LayerResult :=
  let w1 : World := { w with snapshots := removeSnap w.snapshots WorkingContainerName }
  let baseActs :=
    if l.fromBuilt then [Act.deleteSnap WorkingContainerName, Act.restore l.fromTag WorkingContainerName]
    else [Act.deleteSnap WorkingContainerName, Act.create WorkingContainerName]
  if !x.materializeOk then ⟨some "materialize base", w1, baseActs⟩
  else
    let w2 : World := { w1 with snapshots := addSnap w1.snapshots WorkingContainerName }
    if !x.getBaseOk then ⟨some "get base layer", w2, baseActs ++ [Act.getBase l.name]⟩
    else if !x.applyOk then
      ⟨some "apply", w2, baseActs ++ [Act.getBase l.name, Act.applyImports l.name]⟩
    else
      let preActs := baseActs ++ [Act.getBase l.name, Act.applyImports l.name]
      if l.hasRun then
        if !x.shExists then
          ⟨some ("rootfs for " ++ l.name ++ " does not have a /bin/sh"), w2, preActs⟩
        else if !x.runOk then
          ⟨some "run commands", w2, preActs ++ [Act.runCmds l.name]⟩
        else finishMiss layerType hasSave l x w2 (preActs ++ [Act.runCmds l.name])
      else finishMiss layerType hasSave l x w2 preActs

/-- The hit path of the build loop (build.go lines 332-357): for a build-only
layer whose entry was stored under a different name, snapshot that entry's
snapshot under the layer's name; for a packaged layer, repoint the layer's named
reference to the cached descriptor; then save the layer if asked. -/
def hitPhase (hasSave : Bool) (l : Layer) (x : Ext) (e : CacheEntry) (w : World) :
    LayerResult :=
  if l.buildOnly then
    if e.name ≠ l.name then
      if !x.snapshotOk then ⟨some "snapshot", w, [Act.snapshot e.name l.name]⟩
      else
        saveIfAsked hasSave x.saveOk l.name
          { w with snapshots := addSnap w.snapshots l.name } [Act.snapshot e.name l.name]
    else saveIfAsked hasSave x.saveOk l.name w []
  else
    if !x.updateRefOk then ⟨some "update reference", w, [Act.updateRef l.name e.blob]⟩
    else
      saveIfAsked hasSave x.saveOk l.name
        { w with imageRefs := setAssoc w.imageRefs l.name e.blob }
        [Act.updateRef l.name e.blob]

/-- Processing of one layer of the build loop (build.go lines 309-624): run the
declared imports first (they participate in the cache identity), consult the
cache, and take the hit or miss path. -/
def buildLayer (layerType : String) (hasSave : Bool) (l : Layer) (x : Ext) (w : World) :
    LayerResult :=
  if !x.importOk then ⟨some "import", w, [Act.importFiles l.name]⟩
  else
    match cacheLookup w l with
    | some e =>
      let r := hitPhase hasSave l x e w
      ⟨r.err, r.world, Act.importFiles l.name :: r.trace⟩
    | none =>
      let r := missPhase layerType hasSave l x w
      ⟨r.err, r.world, Act.importFiles l.name :: r.trace⟩

/-- The per-layer loop of Builder.Build, aborting at the first failing layer. -/
def buildLoop (layerType : String) (hasSave : Bool) :
    List (Layer × Ext) → World → LayerResult
| [], w => ⟨none, w, []⟩
| (l, x) :: rest, w =>
  let r := buildLayer layerType hasSave l x w
  match r.err with
  | some e => ⟨some e, r.world, r.trace⟩
  | none =>
    let r2 := buildLoop layerType hasSave rest r.world
    ⟨r2.err, r2.world, r.trace ++ r2.trace⟩

/-- Builder.Build from the initial working-snapshot delete through the final GC
(build.go lines 308-631). When every layer succeeds the source runs the image
store's GC, logs a failure — and returns the GC call's error as Build's result. -/
def runBuild (layerType : String) (hasSave : Bool) (items : List (Layer × Ext)) (w : World)
    (gcErr : Option String) : LayerResult :=
  let w0 : World := { w with snapshots := removeSnap w.snapshots WorkingContainerName }
  let r := buildLoop layerType hasSave items w0
  match r.err with
  | some e => ⟨some e, r.world, Act.deleteSnap WorkingContainerName :: r.trace⟩
  | none => ⟨gcErr, r.world, Act.deleteSnap WorkingContainerName :: (r.trace ++ [Act.gcRun])⟩

/-- The conjunction of the packaged tail's step successes. -/
def pkgStepsOk (layerType : String) (x : Ext) : Bool :=
  (layerType == "tar" || layerType == "squashfs") && x.packageOk && x.resolveOk &&
    x.commitOk && x.updateRefOk && x.bundleOk && x.snapshotOk

/-- The conjunction of the miss path's step successes up to (but excluding) the
cache Put. -/
def missStepsOk (layerType : String) (l : Layer) (x : Ext) : Bool :=
  x.materializeOk && x.getBaseOk && x.applyOk &&
    (!l.hasRun || (x.shExists && x.runOk)) &&
    (if l.buildOnly then x.snapshotOk else pkgStepsOk layerType x)

/-- The claim's notion of an environment that already sets PATH: the base config
env has an entry with the "PATH=" prefix, or the recipe declares a pair whose
rendering has the "PATH=" prefix (in particular a pair with key PATH). -/
def setsPath (baseEnv : List String) (env : List (String × String)) : Prop :=
  (baseEnv.any fun s => strStarts s "PATH=") = true ∨
    (env.any fun kv => strStarts (kv.1 ++ "=" ++ kv.2) "PATH=") = true

instance (baseEnv : List String) (env : List (String × String)) :
    Decidable (setsPath baseEnv env) := by
  unfold setsPath
  infer_instance

/-- C2: on a successful run of the squashfs diff loop, the include list handed to
the packaging backend consists of exactly the Modified, Extra and Missing paths
(in diff order, each joined under the rootfs and carrying its directory flag),
and the exclude list consists of exactly the Same paths — the payload therefore
contains exactly the changed paths and excludes every unchanged one. -/
theorem squashfs_payload_exact (root : String) (mk : String → MknodRes)
    (ds : List DiffEntry) (h : (processDiffs root mk ds).err = none) :
    (processDiffs root mk ds).paths.includes = ds.filterMap (inclOf root) ∧
    (processDiffs root mk ds).paths.excludes = ds.filterMap (exclOf root) := by
  induction ds with
  | nil => simp [processDiffs]
  | cons d rest ih =>
    cases ht : d.type
    case modified =>
      simp only [processDiffs, ht] at h ⊢
      obtain ⟨h1, h2⟩ := ih h
      simp [List.filterMap_cons, inclOf, exclOf, ht, h1, h2]
    case extra =>
      simp only [processDiffs, ht] at h ⊢
      obtain ⟨h1, h2⟩ := ih h
      simp [List.filterMap_cons, inclOf, exclOf, ht, h1, h2]
    case missing =>
      simp only [processDiffs, ht] at h ⊢
      by_cases htol : tolerableMknod (mk (pathJoin root d.path)) = true
      · simp only [htol, if_true] at h ⊢
        obtain ⟨h1, h2⟩ := ih h
        simp [List.filterMap_cons, inclOf, exclOf, ht, h1, h2]
      · simp [htol] at h
    case same =>
      simp only [processDiffs, ht] at h ⊢
      obtain ⟨h1, h2⟩ := ih h
      simp [List.filterMap_cons, inclOf, exclOf, ht, h1, h2]

/-- C2 witness: for the base tree a↦"1", b↦"2" and the built tree a↦"1", b↦"3",
c↦"4", the payload include list is exactly b and c and the exclude list is
exactly a. -/
theorem squashfs_payload_exact_witness :
    (processDiffs "/rootfs" (fun _ => MknodRes.ok)
        (compareTrees [("a", "1"), ("b", "2")]
          [("a", "1"), ("b", "3"), ("c", "4")])).paths.includes
        = [("/rootfs/b", false), ("/rootfs/c", false)] ∧
    (processDiffs "/rootfs" (fun _ => MknodRes.ok)
        (compareTrees [("a", "1"), ("b", "2")]
          [("a", "1"), ("b", "3"), ("c", "4")])).paths.excludes
        = ["/rootfs/a"] := by
  have h := squashfs_payload_exact "/rootfs" (fun _ => MknodRes.ok)
    (compareTrees [("a", "1"), ("b", "2")] [("a", "1"), ("b", "3"), ("c", "4")])
    (by decide)
  exact ⟨h.1.trans (by decide), h.2.trans (by decide)⟩

/-- C3: on a successful run of the squashfs diff loop, every path classified
Missing (Removed) has a whiteout created at its joined path — a character-special
node with device numbers 0 and 0 — and that path is added to the include list
with the old entry's directory flag. -/
theorem whiteout_marker_for_removed (root : String) (mk : String → MknodRes)
    (ds : List DiffEntry) (d : DiffEntry) (hd : d ∈ ds)
    (ht : d.type = DiffType.missing)
    (h : (processDiffs root mk ds).err = none) :
    DiffAct.mknodChar (pathJoin root d.path) 0 0 ∈ (processDiffs root mk ds).acts ∧
    (pathJoin root d.path, d.oldIsDir) ∈ (processDiffs root mk ds).paths.includes := by
  induction ds with
  | nil => cases hd
  | cons a rest ih =>
    rcases List.mem_cons.mp hd with rfl | hd'
    · simp only [processDiffs, ht] at h ⊢
      by_cases htol : tolerableMknod (mk (pathJoin root d.path)) = true
      · simp [htol]
      · simp [htol] at h
    · cases ha : a.type
      case modified =>
        simp only [processDiffs, ha] at h ⊢
        obtain ⟨h1, h2⟩ := ih hd' h
        exact ⟨h1, List.mem_cons_of_mem _ h2⟩
      case extra =>
        simp only [processDiffs, ha] at h ⊢
        obtain ⟨h1, h2⟩ := ih hd' h
        exact ⟨h1, List.mem_cons_of_mem _ h2⟩
      case missing =>
        simp only [processDiffs, ha] at h ⊢
        by_cases htol : tolerableMknod (mk (pathJoin root a.path)) = true
        · simp only [htol, if_true] at h ⊢
          obtain ⟨h1, h2⟩ := ih hd' h
          exact ⟨List.mem_cons_of_mem _ h1, List.mem_cons_of_mem _ h2⟩
        · simp [htol] at h
      case same =>
        simp only [processDiffs, ha] at h ⊢
        exact ih hd' h

/-- C3 witness: a removed directory d produces a whiteout mknod at /rootfs/d and
an include entry carrying the old entry's directory flag. -/
theorem whiteout_marker_for_removed_witness :
    DiffAct.mknodChar "/rootfs/d" 0 0
        ∈ (processDiffs "/rootfs" (fun _ => MknodRes.ok)
            [⟨"d", DiffType.missing, true, false⟩]).acts ∧
    ("/rootfs/d", true)
        ∈ (processDiffs "/rootfs" (fun _ => MknodRes.ok)
            [⟨"d", DiffType.missing, true, false⟩]).paths.includes := by
  have h := whiteout_marker_for_removed "/rootfs" (fun _ => MknodRes.ok)
    [⟨"d", DiffType.missing, true, false⟩] ⟨"d", DiffType.missing, true, false⟩
    (by decide) (by decide) (by decide)
  exact h

/-- C4 (counter-evidence, code bug): the deferred cleanup list of the diff loop
also removes Modified and Extra paths from the working tree — here a single
Modified path b, for which no whiteout mknod was made, ends up in the removal
list, contradicting the claim that only the whiteout marker files created for
Removed paths are removed. -/
theorem cleanup_removes_modified_path :
    (processDiffs "/rootfs" (fun _ => MknodRes.ok)
        [⟨"b", DiffType.modified, false, false⟩]).cleanup = ["/rootfs/b"] ∧
    (processDiffs "/rootfs" (fun _ => MknodRes.ok)
        [⟨"b", DiffType.modified, false, false⟩]).acts = [] := by
  exact ⟨rfl, rfl⟩

/-- C6: the squashfs diff loop fails if and only if some Missing path's whiteout
mknod fails with an error other than ENOENT ("path does not exist") or ENOTDIR
("not a directory"); those two error kinds are tolerated and the diff proceeds. -/
theorem whiteout_failure_tolerance (root : String) (mk : String → MknodRes)
    (ds : List DiffEntry) :
    (processDiffs root mk ds).err = none ↔
      ∀ d ∈ ds, d.type = DiffType.missing →
        tolerableMknod (mk (pathJoin root d.path)) = true := by
  induction ds with
  | nil => simp [processDiffs]
  | cons d rest ih =>
    cases ht : d.type
    case modified => simp [processDiffs, ht, ih]
    case extra => simp [processDiffs, ht, ih]
    case missing =>
      by_cases htol : tolerableMknod (mk (pathJoin root d.path)) = true
      · simp [processDiffs, ht, htol, ih]
      · simp [processDiffs, ht, htol]
    case same => simp [processDiffs, ht, ih]

/-- C6 witness: an ENOTDIR failure while creating the whiteout for a Missing path
is tolerated and the diff succeeds. -/
theorem whiteout_failure_tolerance_witness :
    (processDiffs "/rootfs" (fun _ => MknodRes.enotdir)
        [⟨"d", DiffType.missing, true, false⟩]).err = none := by
  exact (whiteout_failure_tolerance "/rootfs" (fun _ => MknodRes.enotdir)
    [⟨"d", DiffType.missing, true, false⟩]).mpr (by decide)

/-- A name is a member of the snapshot list it was just added to. -/
theorem mem_addSnap_self (s : List String) (n : String) : n ∈ addSnap s n := by
  by_cases h : n ∈ s
  · simp [addSnap, h]
  · simp [addSnap, h]

/-- The packaged tail records a cache Put exactly when every step before the Put
succeeded. -/
theorem packagedTail_put_mem (hs : Bool) (l : Layer) (x : Ext) (w : World) :
    Act.cachePut l.name ∈ (packagedTail hs l x w).trace ↔
      (x.packageOk && x.resolveOk && x.commitOk && x.updateRefOk && x.bundleOk &&
        x.snapshotOk) = true := by
  cases hpk : x.packageOk
  · simp [packagedTail, hpk]
  · cases hrs : x.resolveOk
    · simp [packagedTail, hpk, hrs]
    · cases hcm : x.commitOk
      · simp [packagedTail, hpk, hrs, hcm]
      · cases hup : x.updateRefOk
        · simp [packagedTail, hpk, hrs, hcm, hup]
        · cases hbn : x.bundleOk
          · simp [packagedTail, hpk, hrs, hcm, hup, hbn]
          · cases hsn : x.snapshotOk
            · simp [packagedTail, hpk, hrs, hcm, hup, hbn, hsn]
            · cases hpt : x.putOk
              · simp [packagedTail, hpk, hrs, hcm, hup, hbn, hsn, hpt]
              · cases hs <;> cases hsv : x.saveOk <;>
                  simp [packagedTail, saveIfAsked, hpk, hrs, hcm, hup, hbn, hsn, hpt, hsv]

/-- The build-only tail records a cache Put exactly when the snapshot succeeded. -/
theorem buildOnlyPhase_put_mem (l : Layer) (x : Ext) (w : World) :
    Act.cachePut l.name ∈ (buildOnlyPhase l x w).trace ↔ x.snapshotOk = true := by
  cases hsn : x.snapshotOk
  · simp [buildOnlyPhase, hsn]
  · cases hpt : x.putOk
    · simp [buildOnlyPhase, hsn, hpt]
    · simp [buildOnlyPhase, hsn, hpt]

/-- The layer-type switch records a cache Put exactly when the type is known and
the packaged tail's steps succeeded. -/
theorem packagePhase_put_mem (lt : String) (hs : Bool) (l : Layer) (x : Ext) (w : World) :
    Act.cachePut l.name ∈ (packagePhase lt hs l x w).trace ↔ pkgStepsOk lt x = true := by
  by_cases h1 : lt = "tar"
  · simp [packagePhase, pkgStepsOk, h1, packagedTail_put_mem, Bool.and_assoc]
  · by_cases h2 : lt = "squashfs"
    · simp [packagePhase, pkgStepsOk, h1, h2, packagedTail_put_mem, Bool.and_assoc]
    · simp [packagePhase, pkgStepsOk, h1, h2, beq_iff_eq]

/-- Membership of the cache Put in the post-command phase. -/
theorem finishMiss_put_mem (lt : String) (hs : Bool) (l : Layer) (x : Ext) (w : World)
    (tr : List Act) :
    Act.cachePut l.name ∈ (finishMiss lt hs l x w tr).trace ↔
      Act.cachePut l.name ∈ tr ∨
        (if l.buildOnly then x.snapshotOk else pkgStepsOk lt x) = true := by
  cases hb : l.buildOnly
  · simp [finishMiss, hb, packagePhase_put_mem]
  · simp [finishMiss, hb, buildOnlyPhase_put_mem]

/-- The miss path records a cache Put exactly when every step before the Put
succeeded. -/
theorem missPhase_put_mem (lt : String) (hs : Bool) (l : Layer) (x : Ext) (w : World) :
    Act.cachePut l.name ∈ (missPhase lt hs l x w).trace ↔ missStepsOk lt l x = true := by
  cases hmt : x.materializeOk
  · cases hf : l.fromBuilt <;> simp [missPhase, missStepsOk, hmt, hf]
  · cases hgb : x.getBaseOk
    · cases hf : l.fromBuilt <;> simp [missPhase, missStepsOk, hmt, hgb, hf]
    · cases hap : x.applyOk
      · cases hf : l.fromBuilt <;> simp [missPhase, missStepsOk, hmt, hgb, hap, hf]
      · cases hr : l.hasRun
        · cases hf : l.fromBuilt <;>
            simp [missPhase, missStepsOk, hmt, hgb, hap, hr, hf, finishMiss_put_mem]
        · cases hsh : x.shExists
          · cases hf : l.fromBuilt <;>
              simp [missPhase, missStepsOk, hmt, hgb, hap, hr, hsh, hf]
          · cases hrn : x.runOk
            · cases hf : l.fromBuilt <;>
                simp [missPhase, missStepsOk, hmt, hgb, hap, hr, hsh, hrn, hf]
            · cases hf : l.fromBuilt <;>
                simp [missPhase, missStepsOk, hmt, hgb, hap, hr, hsh, hrn, hf,
                  finishMiss_put_mem]

/-- The hit path never records a cache Put. -/
theorem hitPhase_no_put (hs : Bool) (l : Layer) (x : Ext) (e : CacheEntry) (w : World) :
    Act.cachePut l.name ∉ (hitPhase hs l x e w).trace := by
  cases hb : l.buildOnly
  · cases hup : x.updateRefOk
    · simp [hitPhase, hb, hup]
    · cases hs <;> cases hsv : x.saveOk <;> simp [hitPhase, saveIfAsked, hb, hup, hsv]
  · by_cases hne : e.name ≠ l.name
    · cases hsn : x.snapshotOk
      · simp [hitPhase, hb, hne, hsn]
      · cases hs <;> cases hsv : x.saveOk <;>
          simp [hitPhase, saveIfAsked, hb, hne, hsn, hsv]
    · cases hs <;> cases hsv : x.saveOk <;> simp [hitPhase, saveIfAsked, hb, hne, hsv]

/-- When command execution fails, the miss path errors out with the image
references untouched. -/
theorem missPhase_run_fail (lt : String) (hs : Bool) (l : Layer) (x : Ext) (w : World)
    (hr : l.hasRun = true) (hrn : x.runOk = false) :
    (missPhase lt hs l x w).err ≠ none ∧
      (missPhase lt hs l x w).world.imageRefs = w.imageRefs := by
  cases hmt : x.materializeOk
  · simp [missPhase, hmt]
  · cases hgb : x.getBaseOk
    · simp [missPhase, hmt, hgb]
    · cases hap : x.applyOk
      · simp [missPhase, hmt, hgb, hap]
      · cases hsh : x.shExists
        · simp [missPhase, hmt, hgb, hap, hr, hsh]
        · simp [missPhase, hmt, hgb, hap, hr, hsh, hrn]

/-- C1: the build loop calls the cache's Put for a layer exactly when the lookup
missed and every build step (import, base materialization, command execution,
diff/packaging, metadata commit, snapshot) succeeded — so a failure at any of
those steps leaves no cache entry; moreover, when command execution fails
mid-layer, the layer build fails with the image store's named references
unchanged and no Put called. -/
theorem cache_put_only_after_success (layerType : String) (hasSave : Bool) (l : Layer)
    (x : Ext) (w : World) :
    (Act.cachePut l.name ∈ (buildLayer layerType hasSave l x w).trace ↔
        cacheLookup w l = none ∧ (x.importOk && missStepsOk layerType l x) = true) ∧
    (cacheLookup w l = none → l.hasRun = true → x.runOk = false →
        (buildLayer layerType hasSave l x w).err ≠ none ∧
        (buildLayer layerType hasSave l x w).world.imageRefs = w.imageRefs ∧
        Act.cachePut l.name ∉ (buildLayer layerType hasSave l x w).trace) := by
  constructor
  · cases himp : x.importOk
    · simp [buildLayer, himp]
    · cases hlk : cacheLookup w l
      · simp [buildLayer, himp, hlk, missPhase_put_mem]
      · simp [buildLayer, himp, hlk, hitPhase_no_put]
  · intro hlk hr hrn
    cases himp : x.importOk
    · refine ⟨by simp [buildLayer, himp], by simp [buildLayer, himp],
        by simp [buildLayer, himp]⟩
    · refine ⟨?_, ?_, ?_⟩
      · simpa [buildLayer, himp, hlk] using
          (missPhase_run_fail layerType hasSave l x w hr hrn).1
      · simpa [buildLayer, himp, hlk] using
          (missPhase_run_fail layerType hasSave l x w hr hrn).2
      · simp [buildLayer, himp, hlk, missPhase_put_mem, missStepsOk, hr, hrn]

/-- C1 witness: a fully successful non-build-only layer build on a miss does call
the cache's Put. -/
theorem cache_put_only_after_success_witness :
    Act.cachePut "app" ∈
      (buildLayer "tar" false ⟨"app", false, false, "", [], false⟩
        ⟨true, true, true, true, true, true, true, true, true, true, true, true,
          true, true, 7, []⟩ ⟨[], [], []⟩).trace := by
  exact (cache_put_only_after_success "tar" false ⟨"app", false, false, "", [], false⟩
    ⟨true, true, true, true, true, true, true, true, true, true, true, true,
      true, true, 7, []⟩ ⟨[], [], []⟩).1.mpr (by decide)

/-- C5 (counter-evidence, code bug): a build whose only layer succeeds but whose
final image-store GC fails returns the GC error as Build's result, not success —
the source logs the GC failure but then ends with `return err`. -/
theorem gc_failure_fails_build :
    (runBuild "tar" false
        [(⟨"app", false, false, "", [], false⟩,
          ⟨true, true, true, true, true, true, true, true, true, true, true, true,
            true, true, 7, []⟩)]
        ⟨[], [], []⟩ (some "final OCI GC failed")).err = some "final OCI GC failed" := by
  rfl

/-- C7: on a cache hit for a build-only layer whose recorded snapshot no longer
exists in the snapshot store, the lookup is treated as a miss for snapshot
purposes: the layer is rebuilt rather than failed, and afterwards a snapshot
exists again under the layer's name. -/
theorem buildonly_missing_snapshot_rebuilt (layerType : String) (hasSave : Bool)
    (l : Layer) (x : Ext) (w : World) (e : CacheEntry)
    (hb : l.buildOnly = true)
    (hc : List.lookup l.name w.cache = some e)
    (hsn0 : w.snapshots.contains e.name = false)
    (himp : x.importOk = true) (hmt : x.materializeOk = true)
    (hgb : x.getBaseOk = true) (hap : x.applyOk = true)
    (hr : l.hasRun = false) (hsn : x.snapshotOk = true) (hpt : x.putOk = true) :
    cacheLookup w l = none ∧
    (buildLayer layerType hasSave l x w).err = none ∧
    l.name ∈ (buildLayer layerType hasSave l x w).world.snapshots ∧
    Act.snapshot WorkingContainerName l.name ∈ (buildLayer layerType hasSave l x w).trace := by
  have hmem : e.name ∉ w.snapshots := by simpa using hsn0
  have hlk : cacheLookup w l = none := by simp [cacheLookup, hc, hb, hmem]
  refine ⟨hlk, ?_, ?_, ?_⟩
  all_goals cases hf : l.fromBuilt <;>
    simp [buildLayer, himp, hlk, missPhase, hmt, hgb, hap, hr, hf, finishMiss, hb,
      buildOnlyPhase, hsn, hpt, mem_addSnap_self]

/-- C7 witness: a concrete build-only layer with a cache entry but no snapshot is
rebuilt successfully. -/
theorem buildonly_missing_snapshot_rebuilt_witness :
    cacheLookup ⟨[], [], [("bo", ⟨"bo", 0⟩)]⟩ ⟨"bo", true, false, "", [], false⟩ = none ∧
    (buildLayer "tar" false ⟨"bo", true, false, "", [], false⟩
      ⟨true, true, true, true, true, true, true, true, true, true, true, true,
        true, true, 7, []⟩ ⟨[], [], [("bo", ⟨"bo", 0⟩)]⟩).err = none ∧
    "bo" ∈ (buildLayer "tar" false ⟨"bo", true, false, "", [], false⟩
      ⟨true, true, true, true, true, true, true, true, true, true, true, true,
        true, true, 7, []⟩ ⟨[], [], [("bo", ⟨"bo", 0⟩)]⟩).world.snapshots ∧
    Act.snapshot WorkingContainerName "bo" ∈
      (buildLayer "tar" false ⟨"bo", true, false, "", [], false⟩
        ⟨true, true, true, true, true, true, true, true, true, true, true, true,
          true, true, 7, []⟩ ⟨[], [], [("bo", ⟨"bo", 0⟩)]⟩).trace := by
  exact buildonly_missing_snapshot_rebuilt "tar" false ⟨"bo", true, false, "", [], false⟩
    ⟨true, true, true, true, true, true, true, true, true, true, true, true,
      true, true, 7, []⟩ ⟨[], [], [("bo", ⟨"bo", 0⟩)]⟩ ⟨"bo", 0⟩
    rfl (by decide) rfl rfl rfl rfl rfl rfl rfl rfl

/-- C8: on a cache hit for a non-build-only layer, the build loop repoints the
layer's image-store reference to the cached entry's descriptor and performs no
rebuild work: the snapshot store and the cache are untouched, and the only
collaborator calls are the import sync, the reference update and (if asked) the
save — no base materialization, no command execution, no diff and no snapshot. -/
theorem hit_repoints_reference (layerType : String) (hasSave : Bool) (l : Layer)
    (x : Ext) (w : World) (e : CacheEntry)
    (hb : l.buildOnly = false)
    (hc : List.lookup l.name w.cache = some e)
    (himp : x.importOk = true) (hup : x.updateRefOk = true) (hsv : x.saveOk = true) :
    (buildLayer layerType hasSave l x w).err = none ∧
    (buildLayer layerType hasSave l x w).world.imageRefs
        = setAssoc w.imageRefs l.name e.blob ∧
    (buildLayer layerType hasSave l x w).world.snapshots = w.snapshots ∧
    (buildLayer layerType hasSave l x w).world.cache = w.cache ∧
    ∀ a ∈ (buildLayer layerType hasSave l x w).trace,
      a = Act.importFiles l.name ∨ a = Act.updateRef l.name e.blob ∨
        a = Act.save l.name := by
  have hlk : cacheLookup w l = some e := by simp [cacheLookup, hc, hb]
  cases hasSave <;> simp [buildLayer, himp, hlk, hitPhase, hb, hup, hsv, saveIfAsked]

/-- C8 witness: a concrete non-build-only layer with a cached descriptor 5 gets
its reference repointed to 5 with no other state change. -/
theorem hit_repoints_reference_witness :
    (buildLayer "tar" false ⟨"app", false, false, "", [], true⟩
      ⟨true, true, true, true, true, true, true, true, true, true, true, true,
        true, true, 7, []⟩ ⟨["s"], [("app", 3)], [("app", ⟨"app", 5⟩)]⟩).err = none ∧
    (buildLayer "tar" false ⟨"app", false, false, "", [], true⟩
      ⟨true, true, true, true, true, true, true, true, true, true, true, true,
        true, true, 7, []⟩
      ⟨["s"], [("app", 3)], [("app", ⟨"app", 5⟩)]⟩).world.imageRefs
        = setAssoc [("app", 3)] "app" 5 ∧
    (buildLayer "tar" false ⟨"app", false, false, "", [], true⟩
      ⟨true, true, true, true, true, true, true, true, true, true, true, true,
        true, true, 7, []⟩
      ⟨["s"], [("app", 3)], [("app", ⟨"app", 5⟩)]⟩).world.snapshots = ["s"] ∧
    (buildLayer "tar" false ⟨"app", false, false, "", [], true⟩
      ⟨true, true, true, true, true, true, true, true, true, true, true, true,
        true, true, 7, []⟩
      ⟨["s"], [("app", 3)], [("app", ⟨"app", 5⟩)]⟩).world.cache
        = [("app", ⟨"app", 5⟩)] ∧
    ∀ a ∈ (buildLayer "tar" false ⟨"app", false, false, "", [], true⟩
      ⟨true, true, true, true, true, true, true, true, true, true, true, true,
        true, true, 7, []⟩ ⟨["s"], [("app", 3)], [("app", ⟨"app", 5⟩)]⟩).trace,
      a = Act.importFiles "app" ∨ a = Act.updateRef "app" 5 ∨ a = Act.save "app" := by
  exact hit_repoints_reference "tar" false ⟨"app", false, false, "", [], true⟩
    ⟨true, true, true, true, true, true, true, true, true, true, true, true,
      true, true, 7, []⟩ ⟨["s"], [("app", 3)], [("app", ⟨"app", 5⟩)]⟩ ⟨"app", 5⟩
    rfl (by decide) rfl rfl rfl

/-- C9 (counterexample): with the unknown layer type "foo", a non-build-only
layer is imported, materialized and has its commands run before the
unknown-backend error is raised — the abort does not happen before build steps
are performed. -/
theorem unknown_layer_type_after_commands :
    (buildLayer "foo" false ⟨"app", false, false, "", [], true⟩
      ⟨true, true, true, true, true, true, true, true, true, true, true, true,
        true, true, 7, []⟩ ⟨[], [], []⟩).err = some "unknown layer type: foo" ∧
    Act.runCmds "app" ∈ (buildLayer "foo" false ⟨"app", false, false, "", [], true⟩
      ⟨true, true, true, true, true, true, true, true, true, true, true, true,
        true, true, 7, []⟩ ⟨[], [], []⟩).trace := by
  exact ⟨rfl, by decide⟩

/-- C9 (amended): an unknown packaging backend is a fatal configuration error,
but it is detected only when a non-build-only layer reaches packaging on a cache
miss — the layer's imports, base materialization and (when present) command
execution have already run; the failing layer itself then gets no packaging
call, no snapshot under its name, no cache Put, and its image references are
unchanged. -/
theorem unknown_layer_type_fails_at_packaging (layerType : String) (hasSave : Bool)
    (l : Layer) (x : Ext) (w : World)
    (h1 : layerType ≠ "tar") (h2 : layerType ≠ "squashfs")
    (hb : l.buildOnly = false) (hlk : cacheLookup w l = none)
    (himp : x.importOk = true) (hmt : x.materializeOk = true)
    (hgb : x.getBaseOk = true) (hap : x.applyOk = true)
    (hsh : x.shExists = true) (hrn : x.runOk = true) :
    (buildLayer layerType hasSave l x w).err
        = some ("unknown layer type: " ++ layerType) ∧
    Act.package l.name ∉ (buildLayer layerType hasSave l x w).trace ∧
    Act.cachePut l.name ∉ (buildLayer layerType hasSave l x w).trace ∧
    (∀ src, Act.snapshot src l.name ∉ (buildLayer layerType hasSave l x w).trace) ∧
    (buildLayer layerType hasSave l x w).world.imageRefs = w.imageRefs := by
  cases hr : l.hasRun <;> cases hf : l.fromBuilt <;>
    simp [buildLayer, himp, hlk, missPhase, hmt, hgb, hap, hr, hsh, hrn, hf,
      finishMiss, hb, packagePhase, h1, h2]

/-- C9 amended witness: the concrete "foo" build of the counterexample also
leaves no packaging call, no snapshot of the layer, no cache Put and unchanged
references. -/
theorem unknown_layer_type_fails_at_packaging_witness :
    (buildLayer "foo" false ⟨"web", false, false, "", [], false⟩
      ⟨true, true, true, true, true, true, true, true, true, true, true, true,
        true, true, 7, []⟩ ⟨[], [("web", 3)], []⟩).err
        = some ("unknown layer type: " ++ "foo") ∧
    Act.package "web" ∉ (buildLayer "foo" false ⟨"web", false, false, "", [], false⟩
      ⟨true, true, true, true, true, true, true, true, true, true, true, true,
        true, true, 7, []⟩ ⟨[], [("web", 3)], []⟩).trace ∧
    Act.cachePut "web" ∉ (buildLayer "foo" false ⟨"web", false, false, "", [], false⟩
      ⟨true, true, true, true, true, true, true, true, true, true, true, true,
        true, true, 7, []⟩ ⟨[], [("web", 3)], []⟩).trace ∧
    (∀ src, Act.snapshot src "web" ∉
      (buildLayer "foo" false ⟨"web", false, false, "", [], false⟩
        ⟨true, true, true, true, true, true, true, true, true, true, true, true,
          true, true, 7, []⟩ ⟨[], [("web", 3)], []⟩).trace) ∧
    (buildLayer "foo" false ⟨"web", false, false, "", [], false⟩
      ⟨true, true, true, true, true, true, true, true, true, true, true, true,
        true, true, 7, []⟩ ⟨[], [("web", 3)], []⟩).world.imageRefs = [("web", 3)] := by
  exact unknown_layer_type_fails_at_packaging "foo" false
    ⟨"web", false, false, "", [], false⟩
    ⟨true, true, true, true, true, true, true, true, true, true, true, true,
      true, true, 7, []⟩ ⟨[], [("web", 3)], []⟩
    (by decide) (by decide) rfl (by decide) rfl rfl rfl rfl rfl rfl

/-- Characters of an appended string. -/
theorem strData_append (a b : String) : (a ++ b).data = a.data ++ b.data := rfl

/-- A character list is a prefix of itself followed by anything. -/
theorem isPrefixOf_append_self (l t : List Char) : l.isPrefixOf (l ++ t) = true := by
  induction l with
  | nil => simp
  | cons c cs ih => simp [List.isPrefixOf_cons₂, ih]

/-- The predicate `any` over a rendered environment, pushed to the pairs. -/
theorem any_rendered (env : List (String × String)) (p : String → Bool) :
    (renderEnv env).any p = env.any fun kv => p (kv.1 ++ "=" ++ kv.2) := by
  induction env with
  | nil => rfl
  | cons kv rest ih =>
    simp only [renderEnv, List.map_cons, List.any_cons] at ih ⊢
    rw [ih]

/-- A rendered environment pair whose key is PATH has the "PATH=" prefix. -/
theorem strStarts_pathkey (k v : String) (hk : k = "PATH") :
    strStarts (k ++ "=" ++ v) "PATH=" = true := by
  subst hk
  have h1 : ("PATH" : String) ++ "=" = "PATH=" := rfl
  rw [h1]
  show ("PATH=").data.isPrefixOf (("PATH=" ++ v)).data = true
  rw [strData_append]
  exact isPrefixOf_append_self _ _

/-- Characterization of the env-appending fold of the build loop. -/
theorem commitEnv_fold (env : List (String × String)) (b : List String) (p : Bool) :
    List.foldl
        (fun acc kv => (acc.1 ++ [kv.1 ++ "=" ++ kv.2], acc.2 || (kv.1 == "PATH")))
        (b, p) env
      = (b ++ renderEnv env, p || env.any fun kv => kv.1 == "PATH") := by
  induction env generalizing b p with
  | nil => simp [renderEnv]
  | cons kv rest ih => simp [renderEnv, ih, Bool.or_assoc]

/-- C10: the committed image config environment gets the default PATH entry
appended exactly when neither the base image's config env nor the recipe's
declared environment sets PATH; when either does, the committed env is just the
base env with the rendered recipe pairs appended and no default is added. -/
theorem default_path_appended_iff (baseEnv : List String) (env : List (String × String)) :
    (setsPath baseEnv env → commitEnv baseEnv env = baseEnv ++ renderEnv env) ∧
    (¬setsPath baseEnv env →
      commitEnv baseEnv env
        = baseEnv ++ renderEnv env ++ ["PATH=" ++ ReasonableDefaultPath]) := by
  have hfold := commitEnv_fold env baseEnv false
  by_cases hk : (env.any fun kv => kv.1 == "PATH") = true
  · have hsp : setsPath baseEnv env := by
      right
      rw [List.any_eq_true] at hk ⊢
      obtain ⟨kv, hmem, hkey⟩ := hk
      exact ⟨kv, hmem, strStarts_pathkey kv.1 kv.2 (by simpa using hkey)⟩
    exact ⟨fun _ => by simp [commitEnv, hfold, hk], fun hns => absurd hsp hns⟩
  · by_cases hsc : ((baseEnv ++ renderEnv env).any fun s => strStarts s "PATH=") = true
    · have hsp : setsPath baseEnv env := by
        rw [List.any_append, Bool.or_eq_true] at hsc
        rcases hsc with hbase | hrend
        · exact Or.inl hbase
        · right
          rw [any_rendered] at hrend
          exact hrend
      exact ⟨fun _ => by simp [commitEnv, hfold, hk, hsc], fun hns => absurd hsp hns⟩
    · have hns : ¬setsPath baseEnv env := by
        intro hsp
        apply hsc
        rw [List.any_append, Bool.or_eq_true]
        rcases hsp with hbase | hrend
        · exact Or.inl hbase
        · refine Or.inr ?_
          rw [any_rendered]
          exact hrend
      exact ⟨fun hsp => absurd hsp hns, fun _ => by simp [commitEnv, hfold, hk, hsc]⟩

/-- C10 witness: with no PATH in the base env nor in the recipe env, the default
PATH entry is appended. -/
theorem default_path_appended_iff_witness :
    commitEnv ["TERM=xterm"] [("A", "1")]
      = ["TERM=xterm"] ++ renderEnv [("A", "1")] ++ ["PATH=" ++ ReasonableDefaultPath] := by
  exact (default_path_appended_iff ["TERM=xterm"] [("A", "1")]).2 (by decide)

end Stacker
